import Mathlib

/-!
Verification of the LDAP debug/sync surface (`pkg/api/ldap_debug.go`).

The Go code is embedded shallowly: Go maps become association lists (or
lookup functions built from the store's result list), `nil`-able pointers
become `Option`, the bus/directory collaborators become explicit inputs
(environment records), and every observable side effect (disable call,
upsert dispatch, store query, directory lookup) is recorded in an explicit
effect trace returned alongside the HTTP response.
-/

/-- `models.RoleType` is a string type in Go; its zero value is `""`. -/
abbrev RoleType := String

/-- Model of `models.ExternalUserInfo` (the fields this file uses).
The Go map `OrgRoles map[int64]RoleType` is modelled as an association
list; `lookupRole` reproduces map access with the zero-value default. -/
structure ExternalUserInfo where
  name : String
  email : String
  login : String
  isGrafanaAdmin : Option Bool
  isDisabled : Bool
  orgRoles : List (Int × RoleType)
  groups : List String
deriving DecidableEq, Repr

/-- Go map access `m[k]`: first binding for `k`, or the zero value `""`. -/
def lookupRole (roles : List (Int × RoleType)) (orgId : Int) : RoleType :=
  match roles.find? (fun p => p.1 == orgId) with
  | some p => p.2
  | none => ""

/-- Model of `ldap.GroupToOrgRole` (the fields this file uses). -/
structure GroupToOrgRole where
  groupDN : String
  orgID : Int
  orgRole : RoleType
deriving DecidableEq, Repr

/-- `isMatchToLDAPGroup`: `user.OrgRoles[groupConfig.OrgID] == groupConfig.OrgRole`. -/
def isMatchToLDAPGroup (user : ExternalUserInfo) (groupConfig : GroupToOrgRole) : Bool :=
  lookupRole user.orgRoles groupConfig.orgID == groupConfig.orgRole

/-- Modelled from the spec: `util.SplitString` (package `pkg/util`, not under
`src/`) splits a string into whitespace-delimited tokens. Tokenizer over the
character list: whitespace separates tokens, empty tokens do not appear. -/
def splitWhitespaceAux : List Char → List Char → List String
  | [], acc => if acc.isEmpty then [] else [String.mk acc.reverse]
  | c :: cs, acc =>
    if c.isWhitespace then
      (if acc.isEmpty then [] else [String.mk acc.reverse]) ++ splitWhitespaceAux cs []
    else
      splitWhitespaceAux cs (c :: acc)

/-- Modelled from the spec: `util.SplitString` — the list of
whitespace-delimited tokens of `s`. -/
def SplitString (s : String) : List String :=
  splitWhitespaceAux s.data []

/-- `splitName`: switch on the number of tokens of the full name. -/
def splitName (name : String) : String × String :=
  match SplitString name with
  | [] => ("", "")
  | [n] => (n, "")
  | n :: m :: _ => (n, m)

/-- `RoleDTO`; the Go zero value is `⟨0, "", "", ""⟩`. -/
structure RoleDTO where
  orgId : Int
  orgName : String
  orgRole : RoleType
  groupDN : String
deriving DecidableEq, Repr

/-- One iteration of the group loop in `GetUserFromLDAP`: build the
assignment for rule `g`, matched or unmatched. -/
def roleForGroup (user : ExternalUserInfo) (g : GroupToOrgRole) : RoleDTO :=
  if isMatchToLDAPGroup user g then
    { orgId := g.orgID, orgName := "", orgRole := lookupRole user.orgRoles g.orgID,
      groupDN := g.groupDN }
  else
    { orgId := g.orgID, orgName := "", orgRole := "", groupDN := g.groupDN }

/-- The group loop of `GetUserFromLDAP` (lines 244-263): start from the empty
slice and append one `RoleDTO` per configured group, in order. -/
def computeOrgRoles (user : ExternalUserInfo) (groups : List GroupToOrgRole) : List RoleDTO :=
  groups.foldl (fun acc g => acc ++ [roleForGroup user g]) []

/-- A row of `models.SearchOrgsQuery` result (`Id`, `Name`). -/
structure Org where
  id : Int
  name : String
deriving DecidableEq, Repr

/-- The `orgNamesById` map built in `FetchOrgs` by inserting each result row
in order: the last row with a given id wins; absent ids give `""`. -/
def orgNamesById (result : List Org) (k : Int) : String :=
  match result.reverse.find? (fun org => org.id == k) with
  | some org => org.name
  | none => ""

/-- The mutation applied to one assignment by the `FetchOrgs` loop. -/
def fillOrgName (m : Int → String) (r : RoleDTO) : RoleDTO :=
  { r with orgName := m r.orgId }

/-- The second loop of `FetchOrgs` (lines 74-82): walk the assignments in
order; resolve each org id through the map; a non-empty name is written into
the assignment, an empty one aborts with that org id, leaving the current
and all later assignments untouched (the earlier ones are already written). -/
def fetchOrgsLoop (m : Int → String) : List RoleDTO → List RoleDTO × Option Int
  | [] => ([], none)
  | r :: rest =>
    let orgName := m r.orgId
    if orgName ≠ "" then
      let p := fetchOrgsLoop m rest
      (fillOrgName m r :: p.1, p.2)
    else
      (r :: rest, some r.orgId)

/-- The two failure modes of `FetchOrgs`: the bus dispatch itself failed, or
`errOrganizationNotFound(orgId)`. -/
inductive FetchOrgsError where
  | dispatchFailed (msg : String)
  | orgNotFound (orgId : Int)
deriving DecidableEq, Repr

/-- `(*LDAPUserDTO).FetchOrgs`, parametrised by the outcome `store` of the
`SearchOrgsQuery` dispatch (the ids sent are the assignments' org ids).
Returns the final value of `user.OrgRoles` together with the returned error. -/
def FetchOrgs (orgRoles : List RoleDTO) (store : Except String (List Org)) :
    List RoleDTO × Option FetchOrgsError :=
  match store with
  | .error e => (orgRoles, some (.dispatchFailed e))
  | .ok result =>
    let p := fetchOrgsLoop (orgNamesById result) orgRoles
    (p.1, p.2.map FetchOrgsError.orgNotFound)

example : splitName "Ada Lovelace Extra" = ("Ada", "Lovelace") := by decide
example : splitName "" = ("", "") := by decide
example : FetchOrgs [⟨1, "", "", ""⟩, ⟨2, "", "", ""⟩] (.ok [⟨1, "A"⟩]) =
    ([⟨1, "A", "", ""⟩, ⟨2, "", "", ""⟩], some (.orgNotFound 2)) := by decide

/-- Every observable side effect a handler can perform: collaborator calls
(directory, stores, config) and state mutations (disable, upsert). -/
inductive Effect where
  | getLDAPConfig
  | reloadConfig
  | ping
  | dispatchGetUserById (id : Int)
  | ldapUserLookup (login : String)
  | disableExternalUser (login : String)
  | dispatchUpsert (externalUser : Option ExternalUserInfo) (signupAllowed : Bool)
  | searchOrgs (ids : List Int)
  | getTeams (groups : List String)
deriving DecidableEq, Repr

/-- The `Response` values a handler builds: `Error(status, message, err)`,
`JSON(status, body)`, `Success(message)`. -/
inductive Response (α : Type) where
  | error (status : Nat) (message : String)
  | json (status : Nat) (body : α)
  | success (message : String)
deriving DecidableEq, Repr

/-- `true` exactly on `login.DisableExternalUser` calls. -/
def Effect.isDisableCall : Effect → Bool
  | .disableExternalUser _ => true
  | _ => false

/-- `true` exactly on `UpsertUserCommand` dispatches. -/
def Effect.isUpsertCmd : Effect → Bool
  | .dispatchUpsert _ _ => true
  | _ => false

/-- Number of disable calls in a trace. -/
def countDisable (t : List Effect) : Nat :=
  (t.filter Effect.isDisableCall).length

/-- Number of upsert dispatches in a trace. -/
def countUpsert (t : List Effect) : Nat :=
  (t.filter Effect.isUpsertCmd).length

/-- Error from the `GetUserByIdQuery` dispatch: the distinguished
`models.ErrUserNotFound` or any other error. -/
inductive GetUserError where
  | userNotFound
  | other (msg : String)
deriving DecidableEq, Repr

/-- Result row of `GetUserByIdQuery` (the field this file uses). -/
structure InternalUser where
  login : String
deriving DecidableEq, Repr

/-- Error from the directory lookup `ldapServer.User`: the distinguished
`ldap.ErrCouldNotFindUser` or any other error (connectivity, protocol). -/
inductive LDAPError where
  | couldNotFindUser
  | other (msg : String)
deriving DecidableEq, Repr

/-- The `Sprintf` message of the super-admin guard. -/
def refuseSyncMessage (login : String) : String :=
  "Refusing to sync grafana super admin \"" ++ login ++ "\" - it would be disabled"

/-- Environment of `PostSyncUserWithLDAP`: the enablement flag, the outcomes
of the collaborator calls it makes, and the relevant settings. `lookup`
returns the `(user, err)` pair of `ldapServer.User` (the server config is
unused by this handler). -/
structure SyncEnv where
  enabled : Bool
  config : Except String Unit
  userId : Int
  getUser : Except GetUserError InternalUser
  lookup : String → Option ExternalUserInfo × Option LDAPError
  adminUser : String
  ldapAllowSignup : Bool
  upsertResult : Option String

/-- `PostSyncUserWithLDAP` (lines 146-203). The `GetUserByIdQuery` is
dispatched twice in the source (line 161 by value, its error discarded, and
line 163 by pointer); both dispatches appear in the trace. When the
directory lookup fails with an error other than `ErrCouldNotFindUser`,
control falls through the `if err != nil` block to the upsert dispatch. -/
def PostSyncUserWithLDAP (env : SyncEnv) : Response String × List Effect :=
  if ¬ env.enabled then
    (.error 400 "LDAP is not enabled", [])
  else
    match env.config with
    | .error _ =>
      (.error 400 "Failed to obtain the LDAP configuration. Please verify the configuration and try again.",
       [.getLDAPConfig])
    | .ok _ =>
      let t := [Effect.getLDAPConfig, .dispatchGetUserById env.userId,
                .dispatchGetUserById env.userId]
      match env.getUser with
      | .error .userNotFound => (.error 404 "User not found", t)
      | .error (.other _) => (.error 500 "Failed to get user", t)
      | .ok u =>
        let lr := env.lookup u.login
        let t := t ++ [Effect.ldapUserLookup u.login]
        match lr.2 with
        | some .couldNotFindUser =>
          if env.adminUser = u.login then
            (.error 400 (refuseSyncMessage u.login), t)
          else
            (.json 200 "User disabled without any updates in the information",
             t ++ [Effect.disableExternalUser u.login])
        | _ =>
          let t := t ++ [Effect.dispatchUpsert lr.1 env.ldapAllowSignup]
          match env.upsertResult with
          | some _ => (.error 500 "Failed to udpate the user", t)
          | none => (.json 200 "user synced", t)

/-- Environment of `ReloadLDAPCfg`. -/
structure ReloadEnv where
  enabled : Bool
  reloadResult : Option String

/-- `ReloadLDAPCfg` (lines 96-106). -/
def ReloadLDAPCfg (env : ReloadEnv) : Response String × List Effect :=
  if ¬ env.enabled then
    (.error 400 "LDAP is not enabled", [])
  else
    match env.reloadResult with
    | some _ => (.error 500 "Failed to reload ldap config.", [.reloadConfig])
    | none => (.success "LDAP config reloaded", [.reloadConfig])

/-- One row of `multildap.Ping`'s result. -/
structure ServerStatus where
  host : String
  port : Int
  available : Bool
  err : Option String
deriving DecidableEq, Repr

/-- `LDAPServerDTO`. -/
structure LDAPServerDTO where
  host : String
  port : Int
  available : Bool
  error : String
deriving DecidableEq, Repr

/-- Environment of `GetLDAPStatus`. -/
structure StatusEnv where
  enabled : Bool
  config : Except String Unit
  pingResult : Except String (List ServerStatus)

/-- `GetLDAPStatus` (lines 109-144). -/
def GetLDAPStatus (env : StatusEnv) : Response (List LDAPServerDTO) × List Effect :=
  if ¬ env.enabled then
    (.error 400 "LDAP is not enabled", [])
  else
    match env.config with
    | .error _ =>
      (.error 400 "Failed to obtain the LDAP configuration. Please verify the configuration and try again.",
       [.getLDAPConfig])
    | .ok _ =>
      match env.pingResult with
      | .error _ =>
        (.error 400 "Failed to connect to the LDAP server(s)", [.getLDAPConfig, .ping])
      | .ok statuses =>
        let dtos := statuses.foldl (fun acc s =>
          acc ++ [{ host := s.host, available := s.available, port := s.port,
                    error := match s.err with | some e => e | none => "" }]) []
        (.json 200 dtos, [Effect.getLDAPConfig, .ping])

/-- `LDAPAttribute`. -/
structure LDAPAttribute where
  cfgAttrValue : String
  ldapValue : String
deriving DecidableEq, Repr

/-- The `Attr` section of a server config (the fields this file uses). -/
structure AttrCfg where
  name : String
  surname : String
  email : String
  username : String
deriving DecidableEq, Repr

/-- The server config returned by the directory lookup (the fields this
file uses). -/
structure ServerCfg where
  attr : AttrCfg
  groups : List GroupToOrgRole
deriving DecidableEq, Repr

/-- `LDAPUserDTO` (teams modelled as opaque strings). -/
structure LDAPUserDTO where
  name : LDAPAttribute
  surname : LDAPAttribute
  email : LDAPAttribute
  username : LDAPAttribute
  isGrafanaAdmin : Option Bool
  isDisabled : Bool
  orgRoles : List RoleDTO
  teams : List String
deriving DecidableEq, Repr

/-- Error from the `GetTeamsForLDAPGroupCommand` dispatch: the tolerated
`bus.ErrHandlerNotFound` or any other error. -/
inductive TeamsError where
  | handlerNotFound
  | other (msg : String)
deriving DecidableEq, Repr

/-- Environment of `GetUserFromLDAP`. -/
structure GetUserEnv where
  enabled : Bool
  config : Except String Unit
  username : String
  lookup : String → Option ExternalUserInfo × ServerCfg × Option LDAPError
  searchOrgs : List Int → Except String (List Org)
  teams : List String → Except TeamsError (List String)

/-- `GetUserFromLDAP` (lines 206-282): guard, config, username validation,
directory lookup (`user == nil` check), DTO assembly via `splitName` and the
group loop, `FetchOrgs`, then the team query (absence of a handler is
tolerated, `cmd.Result` staying empty). -/
def GetUserFromLDAP (env : GetUserEnv) : Response LDAPUserDTO × List Effect :=
  if ¬ env.enabled then
    (.error 400 "LDAP is not enabled", [])
  else
    match env.config with
    | .error _ =>
      (.error 400 "Failed to obtain the LDAP configuration", [.getLDAPConfig])
    | .ok _ =>
      if env.username.length = 0 then
        (.error 400 "Validation error. You must specify an username", [.getLDAPConfig])
      else
        let lr := env.lookup env.username
        let t := [Effect.getLDAPConfig, .ldapUserLookup env.username]
        match lr.1 with
        | none => (.error 404 "No user was found on the LDAP server(s)", t)
        | some user =>
          let serverConfig := lr.2.1
          let ns := splitName user.name
          let orgRoles := computeOrgRoles user serverConfig.groups
          let u0 : LDAPUserDTO :=
            { name := ⟨serverConfig.attr.name, ns.1⟩,
              surname := ⟨serverConfig.attr.surname, ns.2⟩,
              email := ⟨serverConfig.attr.email, user.email⟩,
              username := ⟨serverConfig.attr.username, user.login⟩,
              isGrafanaAdmin := user.isGrafanaAdmin,
              isDisabled := user.isDisabled,
              orgRoles := orgRoles, teams := [] }
          let orgIds := orgRoles.map RoleDTO.orgId
          let t := t ++ [Effect.searchOrgs orgIds]
          let fo := FetchOrgs orgRoles (env.searchOrgs orgIds)
          match fo.2 with
          | some _ =>
            (.error 400 "An oganization was not found - Please verify your LDAP configuration", t)
          | none =>
            let t := t ++ [Effect.getTeams user.groups]
            match env.teams user.groups with
            | .error (.other _) => (.error 400 "Unable to find the teams for this user", t)
            | .error .handlerNotFound => (.json 200 { u0 with orgRoles := fo.1 }, t)
            | .ok ts => (.json 200 { u0 with orgRoles := fo.1, teams := ts }, t)

/-! ## Theorems -/

theorem foldl_concat_eq_map (f : GroupToOrgRole → RoleDTO) :
    ∀ (gs : List GroupToOrgRole) (acc : List RoleDTO),
      gs.foldl (fun a g => a ++ [f g]) acc = acc ++ gs.map f
  | [], acc => by simp
  | g :: gs, acc => by
    simp [List.foldl_cons, foldl_concat_eq_map f gs]

theorem computeOrgRoles_eq_map (u : ExternalUserInfo) (gs : List GroupToOrgRole) :
    computeOrgRoles u gs = gs.map (roleForGroup u) := by
  simpa using foldl_concat_eq_map (roleForGroup u) gs []

theorem roleForGroup_eq (u : ExternalUserInfo) (g : GroupToOrgRole) :
    roleForGroup u g =
      if isMatchToLDAPGroup u g then
        { orgId := g.orgID, orgName := "", orgRole := g.orgRole, groupDN := g.groupDN }
      else
        { orgId := g.orgID, orgName := "", orgRole := "", groupDN := g.groupDN } := by
  by_cases h : isMatchToLDAPGroup u g
  · have hr : lookupRole u.orgRoles g.orgID = g.orgRole := by
      simpa [isMatchToLDAPGroup] using h
    simp [roleForGroup, h, hr]
  · simp [roleForGroup, h]

/-- C4: the group loop of `GetUserFromLDAP` emits exactly one assignment per
configured rule, in the rules' input order; a matched rule contributes its
own role with its org id and group DN, an unmatched one the empty role with
the same org id and group DN. -/
theorem computeOrgRoles_spec (u : ExternalUserInfo) (R : List GroupToOrgRole) :
    (computeOrgRoles u R).length = R.length ∧
    ∀ i : Nat, (computeOrgRoles u R)[i]? = R[i]?.map (fun g =>
      if isMatchToLDAPGroup u g then
        { orgId := g.orgID, orgName := "", orgRole := g.orgRole, groupDN := g.groupDN }
      else
        { orgId := g.orgID, orgName := "", orgRole := "", groupDN := g.groupDN }) := by
  constructor
  · simp [computeOrgRoles_eq_map]
  · intro i
    rw [computeOrgRoles_eq_map, List.getElem?_map]
    cases R[i]? with
    | none => rfl
    | some g => simp [roleForGroup_eq]

/-- C5: a rule matches iff the user's role for the rule's organization equals
the rule's role, and any two users agreeing on that organization's role get
the same match outcome for the rule, whatever their other organizations hold. -/
theorem isMatchToLDAPGroup_spec (u : ExternalUserInfo) (r : GroupToOrgRole) :
    (isMatchToLDAPGroup u r = true ↔ lookupRole u.orgRoles r.orgID = r.orgRole) ∧
    (∀ v : ExternalUserInfo,
      lookupRole v.orgRoles r.orgID = lookupRole u.orgRoles r.orgID →
      isMatchToLDAPGroup v r = isMatchToLDAPGroup u r) := by
  refine ⟨by simp [isMatchToLDAPGroup], ?_⟩
  intro v h
  simp [isMatchToLDAPGroup, h]

def exUser1 : ExternalUserInfo :=
  { name := "Ada Lovelace", email := "ada@example.org", login := "ada",
    isGrafanaAdmin := none, isDisabled := false,
    orgRoles := [(1, "Admin"), (2, "Viewer")], groups := [] }

def exUser2 : ExternalUserInfo :=
  { name := "Ada Lovelace", email := "ada@example.org", login := "ada",
    isGrafanaAdmin := none, isDisabled := false,
    orgRoles := [(1, "Admin"), (2, "Editor")], groups := [] }

def exRule : GroupToOrgRole :=
  { groupDN := "cn=admins,dc=example,dc=org", orgID := 1, orgRole := "Admin" }

theorem isMatchToLDAPGroup_spec_witness :
    lookupRole exUser2.orgRoles exRule.orgID = lookupRole exUser1.orgRoles exRule.orgID ∧
    isMatchToLDAPGroup exUser2 exRule = isMatchToLDAPGroup exUser1 exRule :=
  ⟨by decide, (isMatchToLDAPGroup_spec exUser1 exRule).2 exUser2 (by decide)⟩

/-- C9: `splitName` returns `("", "")` on zero tokens, `(token, "")` on one
token, and the first two tokens otherwise, discarding the rest; in
particular on `""`, `"Ada"` and `"Ada Lovelace Extra"`. -/
theorem splitName_spec (name : String) :
    (SplitString name = [] → splitName name = ("", "")) ∧
    (∀ a, SplitString name = [a] → splitName name = (a, "")) ∧
    (∀ a b rest, SplitString name = a :: b :: rest → splitName name = (a, b)) ∧
    splitName "" = ("", "") ∧
    splitName "Ada" = ("Ada", "") ∧
    splitName "Ada Lovelace Extra" = ("Ada", "Lovelace") := by
  refine ⟨?_, ?_, ?_, by decide, by decide, by decide⟩
  · intro h; simp [splitName, h]
  · intro a h; simp [splitName, h]
  · intro a b rest h; simp [splitName, h]

theorem splitName_spec_witness :
    SplitString "Ada Lovelace Extra" = ["Ada", "Lovelace", "Extra"] ∧
    splitName "Ada Lovelace Extra" = ("Ada", "Lovelace") :=
  ⟨by decide, (splitName_spec "Ada Lovelace Extra").2.2.1 "Ada" "Lovelace" ["Extra"] (by decide)⟩

theorem fetchOrgsLoop_fails_iff (m : Int → String) :
    ∀ roles : List RoleDTO,
      (fetchOrgsLoop m roles).2.isSome = true ↔ ∃ r ∈ roles, m r.orgId = ""
  | [] => by simp [fetchOrgsLoop]
  | r :: rest => by
    by_cases h : m r.orgId = ""
    · constructor
      · intro _
        exact ⟨r, by simp, h⟩
      · intro _
        simp [fetchOrgsLoop, h]
    · simp [fetchOrgsLoop, h, fetchOrgsLoop_fails_iff m rest]

theorem orgNamesById_eq_empty_iff (result : List Org)
    (hn : ∀ o ∈ result, o.name ≠ "") (k : Int) :
    orgNamesById result k = "" ↔ k ∉ result.map Org.id := by
  unfold orgNamesById
  cases hf : result.reverse.find? (fun org => org.id == k) with
  | none =>
    simp only []
    constructor
    · intro _ hk
      obtain ⟨o, hmem, hid⟩ := List.mem_map.mp hk
      have := List.find?_eq_none.mp hf o (List.mem_reverse.mpr hmem)
      simp [hid] at this
    · intro _
      trivial
  | some o =>
    have ho : o ∈ result := List.mem_reverse.mp (List.mem_of_find?_eq_some hf)
    have hok : o.id = k := by simpa using List.find?_some hf
    simp only []
    constructor
    · intro h
      exact absurd h (hn o ho)
    · intro hk
      exact absurd (List.mem_map.mpr ⟨o, ho, hok⟩) hk

/-- C2 counterexample: a store result may contain the referenced org id with
an empty name; no id is absent from the result set, yet `FetchOrgs` fails
with the organization-not-found error. -/
theorem fetchOrgs_notFound_despite_present :
    ((1 : Int) ∈ ([⟨1, ""⟩] : List Org).map Org.id) ∧
    (FetchOrgs [⟨1, "", "", ""⟩] (.ok [⟨1, ""⟩])).2 = some (.orgNotFound 1) := by
  decide

/-- C2 amended: over store results in which every returned organization
carries a non-empty name, `FetchOrgs` fails with the organization-not-found
error iff some assignment's org id is absent from the result set, however
many other ids resolved. -/
theorem fetchOrgs_notFound_iff_absent (roles : List RoleDTO) (result : List Org)
    (hn : ∀ o ∈ result, o.name ≠ "") :
    (∃ i, (FetchOrgs roles (.ok result)).2 = some (.orgNotFound i)) ↔
    ∃ r ∈ roles, r.orgId ∉ result.map Org.id := by
  have h1 : (∃ i, (FetchOrgs roles (.ok result)).2 = some (.orgNotFound i)) ↔
      (fetchOrgsLoop (orgNamesById result) roles).2.isSome = true := by
    show (∃ i, (fetchOrgsLoop (orgNamesById result) roles).2.map FetchOrgsError.orgNotFound
        = some (.orgNotFound i)) ↔ _
    cases (fetchOrgsLoop (orgNamesById result) roles).2 with
    | none => simp
    | some j => simp
  rw [h1, fetchOrgsLoop_fails_iff]
  constructor
  · rintro ⟨r, hr, hm⟩
    exact ⟨r, hr, (orgNamesById_eq_empty_iff result hn r.orgId).mp hm⟩
  · rintro ⟨r, hr, hm⟩
    exact ⟨r, hr, (orgNamesById_eq_empty_iff result hn r.orgId).mpr hm⟩

theorem fetchOrgs_notFound_iff_absent_witness :
    (∀ o ∈ ([⟨1, "Main"⟩] : List Org), o.name ≠ "") ∧
    ((∃ i, (FetchOrgs [⟨1, "", "", ""⟩, ⟨2, "", "", ""⟩] (.ok [⟨1, "Main"⟩])).2
        = some (.orgNotFound i)) ↔
      ∃ r ∈ [(⟨1, "", "", ""⟩ : RoleDTO), ⟨2, "", "", ""⟩],
        r.orgId ∉ ([⟨1, "Main"⟩] : List Org).map Org.id) :=
  ⟨by decide,
   fetchOrgs_notFound_iff_absent [⟨1, "", "", ""⟩, ⟨2, "", "", ""⟩] [⟨1, "Main"⟩] (by decide)⟩

/-- C3 counterexample: on a failing `FetchOrgs` call the first assignment's
`OrgName` has already been overwritten — the failure path is not
all-or-nothing. -/
theorem fetchOrgs_mutates_on_failure :
    (FetchOrgs [⟨1, "", "", ""⟩, ⟨2, "", "", ""⟩] (.ok [⟨1, "A"⟩])).2
      = some (.orgNotFound 2) ∧
    (FetchOrgs [⟨1, "", "", ""⟩, ⟨2, "", "", ""⟩] (.ok [⟨1, "A"⟩])).1.map RoleDTO.orgName
      = ["A", ""] ∧
    ([⟨1, "", "", ""⟩, ⟨2, "", "", ""⟩] : List RoleDTO).map RoleDTO.orgName = ["", ""] := by
  decide

theorem fetchOrgsLoop_failure_state (m : Int → String) :
    ∀ (roles : List RoleDTO) (j : Int), (fetchOrgsLoop m roles).2 = some j →
      ∃ i r, roles[i]? = some r ∧ m r.orgId = "" ∧ j = r.orgId ∧
        (fetchOrgsLoop m roles).1 = (roles.take i).map (fillOrgName m) ++ roles.drop i
  | [], j, h => by simp [fetchOrgsLoop] at h
  | r :: rest, j, h => by
    by_cases hm : m r.orgId = ""
    · have hj : j = r.orgId := by
        have : some r.orgId = some j := by simpa [fetchOrgsLoop, hm] using h
        exact (Option.some.inj this).symm
      exact ⟨0, r, by simp, hm, hj, by simp [fetchOrgsLoop, hm]⟩
    · have h' : (fetchOrgsLoop m rest).2 = some j := by
        simpa [fetchOrgsLoop, hm] using h
      obtain ⟨i, r', hg, hm', hj, hout⟩ := fetchOrgsLoop_failure_state m rest j h'
      refine ⟨i + 1, r', by simpa using hg, hm', hj, ?_⟩
      simp [fetchOrgsLoop, hm, hout]

/-- C3 amended: when `FetchOrgs` fails with the organization-not-found error
it fails at the first assignment whose org id resolves to nothing; every
assignment before it has already had its `OrgName` overwritten with the
resolved name, and that assignment and all later ones are unchanged. -/
theorem fetchOrgs_failure_partial_mutation (roles : List RoleDTO) (result : List Org)
    (oid : Int) (h : (FetchOrgs roles (.ok result)).2 = some (.orgNotFound oid)) :
    ∃ i r, roles[i]? = some r ∧ orgNamesById result r.orgId = "" ∧ oid = r.orgId ∧
      (FetchOrgs roles (.ok result)).1 =
        (roles.take i).map (fillOrgName (orgNamesById result)) ++ roles.drop i := by
  have h2 : (fetchOrgsLoop (orgNamesById result) roles).2 = some oid := by
    have h' : (fetchOrgsLoop (orgNamesById result) roles).2.map FetchOrgsError.orgNotFound
        = some (.orgNotFound oid) := h
    cases hc : (fetchOrgsLoop (orgNamesById result) roles).2 with
    | none => rw [hc] at h'; simp at h'
    | some j =>
      rw [hc] at h'
      simp at h'
      simp [h']
  obtain ⟨i, r, hg, hm, hj, hout⟩ :=
    fetchOrgsLoop_failure_state (orgNamesById result) roles oid h2
  exact ⟨i, r, hg, hm, hj, hout⟩

theorem fetchOrgs_failure_partial_mutation_witness :
    (FetchOrgs [⟨1, "", "", ""⟩, ⟨2, "", "", ""⟩] (.ok [⟨1, "A"⟩])).2
      = some (.orgNotFound 2) ∧
    ∃ i r, ([⟨1, "", "", ""⟩, ⟨2, "", "", ""⟩] : List RoleDTO)[i]? = some r ∧
      orgNamesById [⟨1, "A"⟩] r.orgId = "" ∧ (2 : Int) = r.orgId ∧
      (FetchOrgs [⟨1, "", "", ""⟩, ⟨2, "", "", ""⟩] (.ok [⟨1, "A"⟩])).1 =
        (([⟨1, "", "", ""⟩, ⟨2, "", "", ""⟩] : List RoleDTO).take i).map
          (fillOrgName (orgNamesById [⟨1, "A"⟩])) ++
        ([⟨1, "", "", ""⟩, ⟨2, "", "", ""⟩] : List RoleDTO).drop i :=
  ⟨by decide,
   fetchOrgs_failure_partial_mutation [⟨1, "", "", ""⟩, ⟨2, "", "", ""⟩] [⟨1, "A"⟩] 2
     (by decide)⟩

/-- C6: directory lookup says "user not found" and the internal user's login
is the configured super-admin — the handler refuses with an error and issues
neither a disable call nor an upsert dispatch. -/
theorem postSync_refuse (env : SyncEnv) (u : InternalUser)
    (he : env.enabled = true) (hc : env.config = .ok ())
    (hu : env.getUser = .ok u)
    (hl : (env.lookup u.login).2 = some .couldNotFindUser)
    (ha : env.adminUser = u.login) :
    (PostSyncUserWithLDAP env).1 = .error 400 (refuseSyncMessage u.login) ∧
    countDisable (PostSyncUserWithLDAP env).2 = 0 ∧
    countUpsert (PostSyncUserWithLDAP env).2 = 0 := by
  simp [PostSyncUserWithLDAP, he, hc, hu, hl, ha, countDisable, countUpsert,
    Effect.isDisableCall, Effect.isUpsertCmd]

def syncRefuseEnv : SyncEnv :=
  { enabled := true, config := .ok (), userId := 7,
    getUser := .ok ⟨"admin"⟩,
    lookup := fun _ => (none, some .couldNotFindUser),
    adminUser := "admin", ldapAllowSignup := false, upsertResult := none }

theorem postSync_refuse_witness :
    syncRefuseEnv.enabled = true ∧ syncRefuseEnv.config = .ok () ∧
    syncRefuseEnv.getUser = .ok ⟨"admin"⟩ ∧
    (syncRefuseEnv.lookup "admin").2 = some .couldNotFindUser ∧
    syncRefuseEnv.adminUser = "admin" ∧
    ((PostSyncUserWithLDAP syncRefuseEnv).1 = .error 400 (refuseSyncMessage "admin") ∧
     countDisable (PostSyncUserWithLDAP syncRefuseEnv).2 = 0 ∧
     countUpsert (PostSyncUserWithLDAP syncRefuseEnv).2 = 0) :=
  ⟨rfl, rfl, rfl, rfl, rfl,
   postSync_refuse syncRefuseEnv ⟨"admin"⟩ rfl rfl rfl rfl rfl⟩

/-- C7: directory lookup says "user not found" and the login is not the
super-admin — the handler issues exactly one disable call, for that login,
dispatches no upsert, and answers 200. -/
theorem postSync_disable (env : SyncEnv) (u : InternalUser)
    (he : env.enabled = true) (hc : env.config = .ok ())
    (hu : env.getUser = .ok u)
    (hl : (env.lookup u.login).2 = some .couldNotFindUser)
    (ha : env.adminUser ≠ u.login) :
    (PostSyncUserWithLDAP env).1
      = .json 200 "User disabled without any updates in the information" ∧
    (PostSyncUserWithLDAP env).2.filter Effect.isDisableCall
      = [.disableExternalUser u.login] ∧
    countUpsert (PostSyncUserWithLDAP env).2 = 0 := by
  simp [PostSyncUserWithLDAP, he, hc, hu, hl, ha, countUpsert,
    Effect.isDisableCall, Effect.isUpsertCmd]

def syncDisableEnv : SyncEnv :=
  { enabled := true, config := .ok (), userId := 8,
    getUser := .ok ⟨"bob"⟩,
    lookup := fun _ => (none, some .couldNotFindUser),
    adminUser := "admin", ldapAllowSignup := false, upsertResult := none }

theorem postSync_disable_witness :
    syncDisableEnv.enabled = true ∧ syncDisableEnv.config = .ok () ∧
    syncDisableEnv.getUser = .ok ⟨"bob"⟩ ∧
    (syncDisableEnv.lookup "bob").2 = some .couldNotFindUser ∧
    syncDisableEnv.adminUser ≠ "bob" ∧
    ((PostSyncUserWithLDAP syncDisableEnv).1
       = .json 200 "User disabled without any updates in the information" ∧
     (PostSyncUserWithLDAP syncDisableEnv).2.filter Effect.isDisableCall
       = [.disableExternalUser "bob"] ∧
     countUpsert (PostSyncUserWithLDAP syncDisableEnv).2 = 0) :=
  ⟨rfl, rfl, rfl, rfl, by decide,
   postSync_disable syncDisableEnv ⟨"bob"⟩ rfl rfl rfl rfl (by decide)⟩

/-- C8: the directory lookup succeeds — the handler dispatches exactly one
upsert command, carrying the freshly fetched external user and the
configured allow-signup switch, issues no disable call, and answers 200
"user synced" when the dispatch succeeds. -/
theorem postSync_upsert (env : SyncEnv) (u : InternalUser)
    (he : env.enabled = true) (hc : env.config = .ok ())
    (hu : env.getUser = .ok u)
    (hl : (env.lookup u.login).2 = none) :
    (PostSyncUserWithLDAP env).2.filter Effect.isUpsertCmd
      = [.dispatchUpsert (env.lookup u.login).1 env.ldapAllowSignup] ∧
    countDisable (PostSyncUserWithLDAP env).2 = 0 ∧
    (env.upsertResult = none → (PostSyncUserWithLDAP env).1 = .json 200 "user synced") := by
  cases hup : env.upsertResult with
  | none =>
    simp [PostSyncUserWithLDAP, he, hc, hu, hl, hup, countDisable,
      Effect.isDisableCall, Effect.isUpsertCmd]
  | some e =>
    simp [PostSyncUserWithLDAP, he, hc, hu, hl, hup, countDisable,
      Effect.isDisableCall, Effect.isUpsertCmd]

def extCarol : ExternalUserInfo :=
  { name := "Carol C", email := "carol@example.org", login := "carol",
    isGrafanaAdmin := some false, isDisabled := false,
    orgRoles := [(1, "Viewer")], groups := ["cn=users"] }

def syncUpsertEnv : SyncEnv :=
  { enabled := true, config := .ok (), userId := 9,
    getUser := .ok ⟨"carol"⟩,
    lookup := fun _ => (some extCarol, none),
    adminUser := "admin", ldapAllowSignup := true, upsertResult := none }

theorem postSync_upsert_witness :
    syncUpsertEnv.enabled = true ∧ syncUpsertEnv.config = .ok () ∧
    syncUpsertEnv.getUser = .ok ⟨"carol"⟩ ∧
    (syncUpsertEnv.lookup "carol").2 = none ∧
    ((PostSyncUserWithLDAP syncUpsertEnv).2.filter Effect.isUpsertCmd
       = [.dispatchUpsert (syncUpsertEnv.lookup "carol").1 syncUpsertEnv.ldapAllowSignup] ∧
     countDisable (PostSyncUserWithLDAP syncUpsertEnv).2 = 0 ∧
     (syncUpsertEnv.upsertResult = none →
       (PostSyncUserWithLDAP syncUpsertEnv).1 = .json 200 "user synced")) :=
  ⟨rfl, rfl, rfl, rfl,
   postSync_upsert syncUpsertEnv ⟨"carol"⟩ rfl rfl rfl rfl⟩

def syncBugEnv : SyncEnv :=
  { enabled := true, config := .ok (), userId := 1,
    getUser := .ok ⟨"alice"⟩,
    lookup := fun _ => (none, some (.other "connection refused")),
    adminUser := "admin", ldapAllowSignup := true, upsertResult := none }

/-- C1: contrary to the spec, a directory lookup error other than
"user not found" is not propagated: the `if err != nil` block only handles
`ErrCouldNotFindUser` and control falls through, so the handler dispatches
an upsert command (with the nil user the failed lookup returned) and
answers 200 "user synced". -/
theorem postSync_swallows_lookup_error :
    (syncBugEnv.lookup "alice").2 = some (.other "connection refused") ∧
    (PostSyncUserWithLDAP syncBugEnv).1 = .json 200 "user synced" ∧
    countUpsert (PostSyncUserWithLDAP syncBugEnv).2 = 1 ∧
    (PostSyncUserWithLDAP syncBugEnv).2.filter Effect.isUpsertCmd
      = [.dispatchUpsert none true] := by
  decide

/-- C10: each of the four handlers, run with LDAP disabled, answers the 400
"LDAP is not enabled" error with an empty effect trace: no directory,
organization-store, user-store or team-store contact and no mutation. -/
theorem ldapDisabled_guard (e1 : ReloadEnv) (e2 : StatusEnv) (e3 : SyncEnv)
    (e4 : GetUserEnv)
    (h1 : e1.enabled = false) (h2 : e2.enabled = false)
    (h3 : e3.enabled = false) (h4 : e4.enabled = false) :
    ReloadLDAPCfg e1 = (.error 400 "LDAP is not enabled", []) ∧
    GetLDAPStatus e2 = (.error 400 "LDAP is not enabled", []) ∧
    PostSyncUserWithLDAP e3 = (.error 400 "LDAP is not enabled", []) ∧
    GetUserFromLDAP e4 = (.error 400 "LDAP is not enabled", []) := by
  refine ⟨?_, ?_, ?_, ?_⟩
  · simp [ReloadLDAPCfg, h1]
  · simp [GetLDAPStatus, h2]
  · simp [PostSyncUserWithLDAP, h3]
  · simp [GetUserFromLDAP, h4]

def reloadOffEnv : ReloadEnv := { enabled := false, reloadResult := none }

def statusOffEnv : StatusEnv :=
  { enabled := false, config := .ok (), pingResult := .ok [] }

def syncOffEnv : SyncEnv :=
  { enabled := false, config := .ok (), userId := 1,
    getUser := .ok ⟨"alice"⟩, lookup := fun _ => (none, none),
    adminUser := "admin", ldapAllowSignup := true, upsertResult := none }

def getUserOffEnv : GetUserEnv :=
  { enabled := false, config := .ok (), username := "alice",
    lookup := fun _ => (none, ⟨⟨"", "", "", ""⟩, []⟩, none),
    searchOrgs := fun _ => .ok [], teams := fun _ => .ok [] }

theorem ldapDisabled_guard_witness :
    reloadOffEnv.enabled = false ∧ statusOffEnv.enabled = false ∧
    syncOffEnv.enabled = false ∧ getUserOffEnv.enabled = false ∧
    (ReloadLDAPCfg reloadOffEnv = (.error 400 "LDAP is not enabled", []) ∧
     GetLDAPStatus statusOffEnv = (.error 400 "LDAP is not enabled", []) ∧
     PostSyncUserWithLDAP syncOffEnv = (.error 400 "LDAP is not enabled", []) ∧
     GetUserFromLDAP getUserOffEnv = (.error 400 "LDAP is not enabled", [])) :=
  ⟨rfl, rfl, rfl, rfl,
   ldapDisabled_guard reloadOffEnv statusOffEnv syncOffEnv getUserOffEnv rfl rfl rfl rfl⟩
